import Mathlib

/-!
# go-ansi: a shallow embedding of `ansi.go`

The package writes ANSI control sequences to standard output through a
process-wide `formatter` chosen once by `init`.  Standard output is modelled as
the list of writes performed so far; every call of `fmt.Printf` is one write.

Go strings are modelled by Lean strings and observed as bytes through `bytes`
(UTF-8).  Go's `int` (and `Color`, whose underlying type is `int`) is modelled
by `Int`, with 64-bit two's-complement wrap-around on addition.
-/

namespace ansi

/-! ## Machine integers -/

/-- Width of Go's `int` on the 64-bit targets. -/
def intBits : Nat := 64

/-- Two's-complement wrap-around of a mathematical integer into `int`. -/
def wrapInt (x : Int) : Int :=
  (x + 2 ^ (intBits - 1)) % 2 ^ intBits - 2 ^ (intBits - 1)

/-- Go's `a + b` on `int` operands. -/
def intAdd (a b : Int) : Int := wrapInt (a + b)

/-- Whether a mathematical integer is a value of Go's `int`. -/
def isInt (x : Int) : Prop := -(2 ^ (intBits - 1)) ≤ x ∧ x < 2 ^ (intBits - 1)

instance (x : Int) : Decidable (isInt x) := by unfold isInt; infer_instance

/-! ## Colors -/

/-- Go's `type Color int`. -/
abbrev Color := Int

def Black : Color := 0
def Red : Color := 1
def Green : Color := 2
def Yellow : Color := 3
def Blue : Color := 4
def Magenta : Color := 5
def Cyan : Color := 6
def White : Color := 7
def Default : Color := 9

/-- The nine colors declared by the constant block. -/
def definedColors : List Color :=
  [Black, Red, Green, Yellow, Blue, Magenta, Cyan, White, Default]

/-! ## The fragment of Go's `fmt` used by the package -/

/-- The dynamic values handed to `fmt.Printf` as operands. -/
inductive Value where
  | str (s : String)
  | int (n : Int)
  | color (c : Color)
  | slice (elems : List Value)

/-- Decimal rendering of an integer as done by the verb `%d`. -/
def decimal (n : Int) : List Char :=
  if n < 0 then '-' :: Nat.toDigits 10 n.natAbs else Nat.toDigits 10 n.natAbs

/-- Result of `reflect.TypeOf(v).String()`. -/
def Value.typeName : Value → List Char
  | .str _ => "string".data
  | .int _ => "int".data
  | .color _ => "ansi.Color".data
  | .slice _ => "[]interface {}".data

mutual
/-- Rendering of one operand under the verb `%v`. -/
def Value.fmtV : Value → List Char
  | .str s => s.data
  | .int n => decimal n
  | .color c => decimal c
  | .slice elems => '[' :: (Value.fmtVs elems ++ [']'])
/-- Space-separated `%v` rendering of the elements of a slice. -/
def Value.fmtVs : List Value → List Char
  | [] => []
  | [x] => Value.fmtV x
  | x :: y :: rest => Value.fmtV x ++ ' ' :: Value.fmtVs (y :: rest)
end

/-- Go's `badVerb`: the text `%!verb(type=value)`. -/
def badVerb (verb : Char) (v : Value) : List Char :=
  '%' :: '!' :: verb :: '(' :: (v.typeName ++ '=' :: (v.fmtV ++ [')']))

mutual
/-- Go's `printArg` for the verbs `s`, `d` and `v`; `none` for a verb outside
this fragment. -/
def printArg (verb : Char) : Value → Option (List Char)
  | .str s =>
    if verb = 's' ∨ verb = 'v' then some s.data
    else if verb = 'd' then some (badVerb verb (.str s))
    else none
  | .int n =>
    if verb = 'd' ∨ verb = 'v' then some (decimal n)
    else if verb = 's' then some (badVerb verb (.int n))
    else none
  | .color c =>
    if verb = 'd' ∨ verb = 'v' then some (decimal c)
    else if verb = 's' then some (badVerb verb (.color c))
    else none
  | .slice elems =>
    if verb = 's' ∨ verb = 'd' ∨ verb = 'v' then
      (printArgs verb elems).map (fun body => '[' :: (body ++ [']']))
    else none
/-- Space-separated rendering of the elements of a slice under one verb. -/
def printArgs (verb : Char) : List Value → Option (List Char)
  | [] => some []
  | [x] => printArg verb x
  | x :: y :: rest =>
    match printArg verb x, printArgs verb (y :: rest) with
    | some a, some b => some (a ++ ' ' :: b)
    | _, _ => none
end

/-- The bytes that may follow `%` before the verb: flags, width, precision and
argument indexes.  Directives using them are outside the modelled fragment. -/
def isDirectiveModifier (c : Char) : Bool :=
  c = '#' || c = '+' || c = '-' || c = ' ' || c = '.' || c = '[' || c = '*' || c.isDigit

/-- Go's trailer for operands left over after the format is consumed:
`type=value` items separated by a comma and a space. -/
def extraItems : List Value → List Char
  | [] => []
  | [x] => x.typeName ++ '=' :: x.fmtV
  | x :: y :: rest => x.typeName ++ '=' :: (x.fmtV ++ ',' :: ' ' :: extraItems (y :: rest))

/-- Go's check for extra operands at the end of `doPrintf`. -/
def extraArgs : List Value → List Char
  | [] => []
  | x :: rest => "%!(EXTRA ".data ++ extraItems (x :: rest) ++ [')']

/-- Go's `doPrintf` on the fragment: literal text, `%%`, and the verbs handled
by `printArg`, with the `NOVERB`, `MISSING` and `EXTRA` diagnostics.  The result
is `none` when the format leaves the fragment. -/
def doPrintf : List Char → List Value → Option (List Char)
  | [], a => some (extraArgs a)
  | c :: rest, a =>
    if c = '%' then
      match rest with
      | [] => some ("%!(NOVERB)".data ++ extraArgs a)
      | verb :: rest1 =>
        if isDirectiveModifier verb then none
        else if verb = '%' then (doPrintf rest1 a).map (fun out => '%' :: out)
        else
          match a with
          | [] =>
            (doPrintf rest1 []).map
              (fun out => '%' :: '!' :: verb :: "(MISSING)".data ++ out)
          | x :: a1 =>
            match printArg verb x, doPrintf rest1 a1 with
            | some s, some out => some (s ++ out)
            | _, _ => none
    else (doPrintf rest a).map (fun out => c :: out)

/-- Go's `fmt.Sprintf` on the modelled fragment. -/
def fmt.Sprintf (format : String) (a : List Value) : Option String :=
  (doPrintf format.data a).map String.mk

/-! ## Standard output -/

/-- One write to standard output: either its text, or, for a format outside
the modelled fragment of `fmt`, the call whose rendering is left symbolic. -/
inductive Output where
  | text (s : String)
  | unrendered (format : String) (a : List Value)

/-- Standard output: the writes performed so far, oldest first. -/
abbrev Stdout := List Output

/-- Go's `fmt.Printf`: format, then a single write of the result. -/
def fmt.Printf (format : String) (a : List Value) (out : Stdout) : Stdout :=
  match fmt.Sprintf format a with
  | some s => out ++ [Output.text s]
  | none => out ++ [Output.unrendered format a]

/-- UTF-8 bytes of a Go string. -/
def bytes (s : String) : List Nat :=
  (s.data.flatMap String.utf8EncodeChar).map UInt8.toNat

/-! ## The two formatters -/

structure nullFormater where
  deriving DecidableEq

structure escapeFormatter where
  csi : String
  deriving DecidableEq

namespace nullFormater

def ResetColor (_f : nullFormater) (out : Stdout) : Stdout := out
def SetForeground (_f : nullFormater) (_c : Color) (out : Stdout) : Stdout := out
def SetBackground (_f : nullFormater) (_c : Color) (out : Stdout) : Stdout := out
def SetForeAndBackground (_f : nullFormater) (_fore _back : Color) (out : Stdout) : Stdout := out
def CursorSave (_f : nullFormater) (out : Stdout) : Stdout := out
def CursorRestore (_f : nullFormater) (out : Stdout) : Stdout := out
def ClearToEndOfLine (_f : nullFormater) (out : Stdout) : Stdout := out
def ClearToBeginOfLine (_f : nullFormater) (out : Stdout) : Stdout := out
def ClearLine (_f : nullFormater) (out : Stdout) : Stdout := out
def ClearScreenAndMoveOrigin (_f : nullFormater) (out : Stdout) : Stdout := out
def MoveCursor (_f : nullFormater) (_row _col : Int) (out : Stdout) : Stdout := out
def CursorUp (_f : nullFormater) (_rows : Int) (out : Stdout) : Stdout := out
def CursorDown (_f : nullFormater) (_rows : Int) (out : Stdout) : Stdout := out

end nullFormater

namespace escapeFormatter

def ResetColor (f : escapeFormatter) (out : Stdout) : Stdout :=
  fmt.Printf "%s%dm" [.str f.csi, .int 0] out

def SetForeground (f : escapeFormatter) (c : Color) (out : Stdout) : Stdout :=
  fmt.Printf "%s%dm" [.str f.csi, .color (intAdd 30 c)] out

def SetBackground (f : escapeFormatter) (c : Color) (out : Stdout) : Stdout :=
  fmt.Printf "%s%dm" [.str f.csi, .color (intAdd 40 c)] out

def SetForeAndBackground (f : escapeFormatter) (fore back : Color) (out : Stdout) : Stdout :=
  fmt.Printf "%s%d;%dm" [.str f.csi, .color (intAdd 30 fore), .color (intAdd 40 back)] out

def CursorSave (f : escapeFormatter) (out : Stdout) : Stdout :=
  fmt.Printf "%ss" [.str f.csi] out

def CursorRestore (f : escapeFormatter) (out : Stdout) : Stdout :=
  fmt.Printf "%su" [.str f.csi] out

def ClearToEndOfLine (f : escapeFormatter) (out : Stdout) : Stdout :=
  fmt.Printf "%sK" [.str f.csi] out

def ClearToBeginOfLine (f : escapeFormatter) (out : Stdout) : Stdout :=
  fmt.Printf "%s1K" [.str f.csi] out

def ClearLine (f : escapeFormatter) (out : Stdout) : Stdout :=
  fmt.Printf "%s2K" [.str f.csi] out

def ClearScreenAndMoveOrigin (f : escapeFormatter) (out : Stdout) : Stdout :=
  fmt.Printf "%s2J" [.str f.csi] out

def MoveCursor (f : escapeFormatter) (row col : Int) (out : Stdout) : Stdout :=
  fmt.Printf "%s%d;%dH" [.str f.csi, .int row, .int col] out

def CursorUp (f : escapeFormatter) (rows : Int) (out : Stdout) : Stdout :=
  fmt.Printf "%s%dA" [.str f.csi, .int rows] out

def CursorDown (f : escapeFormatter) (rows : Int) (out : Stdout) : Stdout :=
  fmt.Printf "%s%dB" [.str f.csi, .int rows] out

end escapeFormatter

/-- Go's interface `formatter`: a value is one of its two implementations. -/
inductive formatter where
  | null (n : nullFormater)
  | escape (e : escapeFormatter)
  deriving DecidableEq

namespace formatter

def ResetColor : formatter → Stdout → Stdout
  | .null n => n.ResetColor
  | .escape e => e.ResetColor

def SetForeground : formatter → Color → Stdout → Stdout
  | .null n => n.SetForeground
  | .escape e => e.SetForeground

def SetBackground : formatter → Color → Stdout → Stdout
  | .null n => n.SetBackground
  | .escape e => e.SetBackground

def SetForeAndBackground : formatter → Color → Color → Stdout → Stdout
  | .null n => n.SetForeAndBackground
  | .escape e => e.SetForeAndBackground

def CursorSave : formatter → Stdout → Stdout
  | .null n => n.CursorSave
  | .escape e => e.CursorSave

def CursorRestore : formatter → Stdout → Stdout
  | .null n => n.CursorRestore
  | .escape e => e.CursorRestore

def ClearToEndOfLine : formatter → Stdout → Stdout
  | .null n => n.ClearToEndOfLine
  | .escape e => e.ClearToEndOfLine

def ClearToBeginOfLine : formatter → Stdout → Stdout
  | .null n => n.ClearToBeginOfLine
  | .escape e => e.ClearToBeginOfLine

def ClearLine : formatter → Stdout → Stdout
  | .null n => n.ClearLine
  | .escape e => e.ClearLine

def ClearScreenAndMoveOrigin : formatter → Stdout → Stdout
  | .null n => n.ClearScreenAndMoveOrigin
  | .escape e => e.ClearScreenAndMoveOrigin

def MoveCursor : formatter → Int → Int → Stdout → Stdout
  | .null n => n.MoveCursor
  | .escape e => e.MoveCursor

def CursorUp : formatter → Int → Stdout → Stdout
  | .null n => n.CursorUp
  | .escape e => e.CursorUp

def CursorDown : formatter → Int → Stdout → Stdout
  | .null n => n.CursorDown
  | .escape e => e.CursorDown

end formatter

/-! ## Process state, initialisation and the public functions -/

/-- The package variable `f` (nil until `init` has run) together with standard
output. -/
structure State where
  f : Option formatter
  stdout : Stdout

/-- The state of a process before `init`: `f` holds the zero value of an
interface, nil. -/
def State.initial (out : Stdout) : State := { f := none, stdout := out }

/-- The state of a process in which `f` is bound to the given formatter. -/
def State.bound (fm : formatter) (out : Stdout) : State := { f := some fm, stdout := out }

/-- The package initialiser.  The argument is the result of
`terminal.IsTerminal(int(os.Stdout.Fd()))`.  The emitter's `csi` is the raw
(back-quoted) string literal of the source: a backslash, `033` and `[`. -/
def init (isTerminal : Bool) (s : State) : State :=
  if isTerminal == true then
    { s with f := some (formatter.escape { csi := "\\033[" }) }
  else
    { s with f := some (formatter.null {}) }

/-- A method call through the package variable `f`: a call through a nil
interface panics (`none`), otherwise the method acts on standard output. -/
def viaF (m : formatter → Stdout → Stdout) (s : State) : Option State :=
  match s.f with
  | none => none
  | some fm => some { s with stdout := m fm s.stdout }

/-- The public `Printf`: the variadic slice `v` is handed to `fmt.Printf` as
one operand. -/
def Printf (f : String) (v : List Value) (s : State) : Option State :=
  some { s with stdout := fmt.Printf f [Value.slice v] s.stdout }

def ResetColor (s : State) : Option State :=
  viaF (fun fm => fm.ResetColor) s

def SetForeground (c : Color) (s : State) : Option State :=
  viaF (fun fm => fm.SetForeground c) s

def SetBackground (c : Color) (s : State) : Option State :=
  viaF (fun fm => fm.SetBackground c) s

def SetForeAndBackground (fore back : Color) (s : State) : Option State :=
  viaF (fun fm => fm.SetForeAndBackground fore back) s

def CursorSave (s : State) : Option State :=
  viaF (fun fm => fm.CursorSave) s

def CursorRestore (s : State) : Option State :=
  viaF (fun fm => fm.CursorRestore) s

def ClearToEndOfLine (s : State) : Option State :=
  viaF (fun fm => fm.ClearToEndOfLine) s

def ClearToBeginOfLine (s : State) : Option State :=
  viaF (fun fm => fm.ClearToBeginOfLine) s

def ClearLine (s : State) : Option State :=
  viaF (fun fm => fm.ClearLine) s

def ClearScreenAndMoveOrigin (s : State) : Option State :=
  viaF (fun fm => fm.ClearScreenAndMoveOrigin) s

def MoveCursor (row col : Int) (s : State) : Option State :=
  viaF (fun fm => fm.MoveCursor row col) s

def CursorUp (rows : Int) (s : State) : Option State :=
  viaF (fun fm => fm.CursorUp rows) s

def CursorDown (rows : Int) (s : State) : Option State :=
  viaF (fun fm => fm.CursorDown rows) s

/-- A call of one of the fourteen public functions, with its arguments. -/
inductive Call where
  | Printf (f : String) (v : List Value)
  | ResetColor
  | SetForeground (c : Color)
  | SetBackground (c : Color)
  | SetForeAndBackground (fore back : Color)
  | CursorSave
  | CursorRestore
  | ClearToEndOfLine
  | ClearToBeginOfLine
  | ClearLine
  | ClearScreenAndMoveOrigin
  | MoveCursor (row col : Int)
  | CursorUp (rows : Int)
  | CursorDown (rows : Int)

/-- Performing one public call. -/
def Call.exec : Call → State → Option State
  | .Printf f v => ansi.Printf f v
  | .ResetColor => ansi.ResetColor
  | .SetForeground c => ansi.SetForeground c
  | .SetBackground c => ansi.SetBackground c
  | .SetForeAndBackground fore back => ansi.SetForeAndBackground fore back
  | .CursorSave => ansi.CursorSave
  | .CursorRestore => ansi.CursorRestore
  | .ClearToEndOfLine => ansi.ClearToEndOfLine
  | .ClearToBeginOfLine => ansi.ClearToBeginOfLine
  | .ClearLine => ansi.ClearLine
  | .ClearScreenAndMoveOrigin => ansi.ClearScreenAndMoveOrigin
  | .MoveCursor row col => ansi.MoveCursor row col
  | .CursorUp rows => ansi.CursorUp rows
  | .CursorDown rows => ansi.CursorDown rows

/-- Performing a sequence of public calls, first to last; a panic stops it. -/
def execAll : List Call → State → Option State
  | [], s => some s
  | c :: rest, s =>
    match c.exec s with
    | none => none
    | some s1 => execAll rest s1

/-- A method of the `formatter` interface, with its arguments. -/
inductive Method where
  | ResetColor
  | SetForeground (c : Color)
  | SetBackground (c : Color)
  | SetForeAndBackground (fore back : Color)
  | CursorSave
  | CursorRestore
  | ClearToEndOfLine
  | ClearToBeginOfLine
  | ClearLine
  | ClearScreenAndMoveOrigin
  | MoveCursor (row col : Int)
  | CursorUp (rows : Int)
  | CursorDown (rows : Int)

/-- Invoking a method of the discard formatter. -/
def nullFormater.invoke (n : nullFormater) : Method → Stdout → Stdout
  | .ResetColor => n.ResetColor
  | .SetForeground c => n.SetForeground c
  | .SetBackground c => n.SetBackground c
  | .SetForeAndBackground fore back => n.SetForeAndBackground fore back
  | .CursorSave => n.CursorSave
  | .CursorRestore => n.CursorRestore
  | .ClearToEndOfLine => n.ClearToEndOfLine
  | .ClearToBeginOfLine => n.ClearToBeginOfLine
  | .ClearLine => n.ClearLine
  | .ClearScreenAndMoveOrigin => n.ClearScreenAndMoveOrigin
  | .MoveCursor row col => n.MoveCursor row col
  | .CursorUp rows => n.CursorUp rows
  | .CursorDown rows => n.CursorDown rows

/-- The text of every write, `none` for a write left symbolic. -/
def written : Stdout → List (Option String)
  | [] => []
  | Output.text s :: rest => some s :: written rest
  | Output.unrendered _ _ :: rest => none :: written rest

/-- The bytes of every write, `none` for a write left symbolic. -/
def writtenBytes (out : Stdout) : List (Option (List Nat)) :=
  (written out).map (Option.map bytes)

/-- Bytes of the decimal rendering of an integer. -/
def decimalBytes (n : Int) : List Nat := bytes (String.mk (decimal n))

/-- Invoking a method through the `formatter` interface. -/
def formatter.invoke (fm : formatter) : Method → Stdout → Stdout
  | .ResetColor => fm.ResetColor
  | .SetForeground c => fm.SetForeground c
  | .SetBackground c => fm.SetBackground c
  | .SetForeAndBackground fore back => fm.SetForeAndBackground fore back
  | .CursorSave => fm.CursorSave
  | .CursorRestore => fm.CursorRestore
  | .ClearToEndOfLine => fm.ClearToEndOfLine
  | .ClearToBeginOfLine => fm.ClearToBeginOfLine
  | .ClearLine => fm.ClearLine
  | .ClearScreenAndMoveOrigin => fm.ClearScreenAndMoveOrigin
  | .MoveCursor row col => fm.MoveCursor row col
  | .CursorUp rows => fm.CursorUp rows
  | .CursorDown rows => fm.CursorDown rows

/-- The `csi` field of the bound formatter, when it is the escape emitter. -/
def formatter.csiOf : formatter → Option String
  | .null _ => none
  | .escape e => some e.csi

/-- The writes, as bytes, that a public call performs in a fresh process: the
package variable nil, standard output empty, then `init` with the given
terminal-detection result, then the call.  `none` is a panic. -/
def emitted (isTerminal : Bool) (call : State → Option State) :
    Option (List (Option (List Nat))) :=
  (call (init isTerminal (State.initial []))).map (fun s => writtenBytes s.stdout)

/-- All bytes written to standard output, in order; `none` when some write was
left symbolic. -/
def stdoutBytes : Stdout → Option (List Nat)
  | [] => some []
  | Output.text s :: rest => (stdoutBytes rest).map (fun bs => bytes s ++ bs)
  | Output.unrendered _ _ :: _ => none

/-! ## The terminal

The reading of the byte stream by the device at the other end, restricted to
the two commands that clearing the screen and homing the cursor involve, with
their ECMA-48 meaning: `CSI 2 J` (erase in display, whole display) does not move
the cursor, and `CSI r ; c H` (cursor position) does, an absent or zero
parameter standing for 1. -/

/-- The observable part of a terminal: the cursor position, counted from 1,
and whether the whole display has been erased. -/
structure Terminal where
  row : Nat
  col : Nat
  erased : Bool
  deriving DecidableEq

/-- The decoder of the terminal between two bytes: outside a sequence, after
the byte 0x1B, or inside a control sequence with the parameters read so far. -/
inductive Decoder where
  | ground
  | escape
  | csi (params : List Nat) (cur : Option Nat)

/-- Effect of a complete control sequence with the given final byte and
parameters: `J` with parameter 2 erases the whole display and keeps the cursor;
`H` sets the cursor position.  Other sequences are not interpreted (`none`). -/
def Terminal.control (final : Nat) (params : List Nat) (t : Terminal) : Option Terminal :=
  if final = 0x4A then
    if params = [2] then some { t with erased := true } else none
  else if final = 0x48 then
    match params with
    | [r] => some { t with row := max r 1, col := 1 }
    | [r, c] => some { t with row := max r 1, col := max c 1 }
    | _ => none
  else none

/-- Feeding bytes to the terminal.  Only control sequences are interpreted:
printable text, an unknown sequence, or a sequence cut short give `none`. -/
def Terminal.feed : List Nat → Decoder → Terminal → Option Terminal
  | [], Decoder.ground, t => some t
  | [], _, _ => none
  | b :: rest, Decoder.ground, t =>
    if b = 0x1B then Terminal.feed rest Decoder.escape t else none
  | b :: rest, Decoder.escape, t =>
    if b = 0x5B then Terminal.feed rest (Decoder.csi [] none) t else none
  | b :: rest, Decoder.csi ps cur, t =>
    if 0x30 ≤ b ∧ b ≤ 0x39 then
      Terminal.feed rest (Decoder.csi ps (some (cur.getD 0 * 10 + (b - 0x30)))) t
    else if b = 0x3B then
      Terminal.feed rest (Decoder.csi (ps ++ [cur.getD 0]) none) t
    else
      match Terminal.control b (ps ++ [cur.getD 0]) t with
      | none => none
      | some t1 => Terminal.feed rest Decoder.ground t1

/-- The terminal after receiving a byte stream from the ground state. -/
def Terminal.interpret (bs : List Nat) (t : Terminal) : Option Terminal :=
  Terminal.feed bs Decoder.ground t

/-- The terminal after receiving everything written to standard output. -/
def Terminal.receive (out : Stdout) (t : Terminal) : Option Terminal :=
  (stdoutBytes out).bind (fun bs => Terminal.interpret bs t)

/-! ## Lemmas on the embedding -/

theorem bytes_mk_append (a b : List Char) :
    bytes (String.mk (a ++ b)) = bytes (String.mk a) ++ bytes (String.mk b) := by
  simp [bytes]

theorem bytes_rawCsi : bytes "\\033[" = [0x5C, 0x30, 0x33, 0x33, 0x5B] := by decide

theorem bytes_mk_rawCsi_append (rest : List Char) :
    bytes (String.mk ("\\033[".data ++ rest))
      = [0x5C, 0x30, 0x33, 0x33, 0x5B] ++ bytes (String.mk rest) := by
  rw [bytes_mk_append]
  exact congrArg (· ++ bytes (String.mk rest)) bytes_rawCsi

theorem written_append_text (out : Stdout) (s : String) :
    written (out ++ [Output.text s]) = written out ++ [some s] := by
  induction out with
  | nil => rfl
  | cons o rest ih => cases o <;> simp [written, ih]

namespace escapeFormatter

theorem ResetColor_eq (e : escapeFormatter) (out : Stdout) :
    e.ResetColor out = out ++ [Output.text (String.mk (e.csi.data ++ decimal 0 ++ ['m']))] := by
  simp [ResetColor, fmt.Printf, fmt.Sprintf, doPrintf, printArg, isDirectiveModifier, extraArgs]

theorem SetForeground_eq (e : escapeFormatter) (c : Color) (out : Stdout) :
    e.SetForeground c out
      = out ++ [Output.text (String.mk (e.csi.data ++ decimal (intAdd 30 c) ++ ['m']))] := by
  simp [SetForeground, fmt.Printf, fmt.Sprintf, doPrintf, printArg, isDirectiveModifier,
    extraArgs]

theorem SetBackground_eq (e : escapeFormatter) (c : Color) (out : Stdout) :
    e.SetBackground c out
      = out ++ [Output.text (String.mk (e.csi.data ++ decimal (intAdd 40 c) ++ ['m']))] := by
  simp [SetBackground, fmt.Printf, fmt.Sprintf, doPrintf, printArg, isDirectiveModifier,
    extraArgs]

theorem SetForeAndBackground_eq (e : escapeFormatter) (fore back : Color) (out : Stdout) :
    e.SetForeAndBackground fore back out
      = out ++ [Output.text (String.mk (e.csi.data ++ decimal (intAdd 30 fore) ++
          [';'] ++ decimal (intAdd 40 back) ++ ['m']))] := by
  simp [SetForeAndBackground, fmt.Printf, fmt.Sprintf, doPrintf, printArg, isDirectiveModifier,
    extraArgs]

theorem CursorSave_eq (e : escapeFormatter) (out : Stdout) :
    e.CursorSave out = out ++ [Output.text (String.mk (e.csi.data ++ ['s']))] := by
  simp [CursorSave, fmt.Printf, fmt.Sprintf, doPrintf, printArg, isDirectiveModifier, extraArgs]

theorem CursorRestore_eq (e : escapeFormatter) (out : Stdout) :
    e.CursorRestore out = out ++ [Output.text (String.mk (e.csi.data ++ ['u']))] := by
  simp [CursorRestore, fmt.Printf, fmt.Sprintf, doPrintf, printArg, isDirectiveModifier,
    extraArgs]

theorem ClearToEndOfLine_eq (e : escapeFormatter) (out : Stdout) :
    e.ClearToEndOfLine out = out ++ [Output.text (String.mk (e.csi.data ++ ['K']))] := by
  simp [ClearToEndOfLine, fmt.Printf, fmt.Sprintf, doPrintf, printArg, isDirectiveModifier,
    extraArgs]

theorem ClearToBeginOfLine_eq (e : escapeFormatter) (out : Stdout) :
    e.ClearToBeginOfLine out = out ++ [Output.text (String.mk (e.csi.data ++ ['1', 'K']))] := by
  simp [ClearToBeginOfLine, fmt.Printf, fmt.Sprintf, doPrintf, printArg, isDirectiveModifier,
    extraArgs]

theorem ClearLine_eq (e : escapeFormatter) (out : Stdout) :
    e.ClearLine out = out ++ [Output.text (String.mk (e.csi.data ++ ['2', 'K']))] := by
  simp [ClearLine, fmt.Printf, fmt.Sprintf, doPrintf, printArg, isDirectiveModifier, extraArgs]

theorem ClearScreenAndMoveOrigin_eq (e : escapeFormatter) (out : Stdout) :
    e.ClearScreenAndMoveOrigin out
      = out ++ [Output.text (String.mk (e.csi.data ++ ['2', 'J']))] := by
  simp [ClearScreenAndMoveOrigin, fmt.Printf, fmt.Sprintf, doPrintf, printArg,
    isDirectiveModifier, extraArgs]

theorem MoveCursor_eq (e : escapeFormatter) (row col : Int) (out : Stdout) :
    e.MoveCursor row col out
      = out ++ [Output.text (String.mk (e.csi.data ++ decimal row ++
          [';'] ++ decimal col ++ ['H']))] := by
  simp [MoveCursor, fmt.Printf, fmt.Sprintf, doPrintf, printArg, isDirectiveModifier, extraArgs]

theorem CursorUp_eq (e : escapeFormatter) (rows : Int) (out : Stdout) :
    e.CursorUp rows out
      = out ++ [Output.text (String.mk (e.csi.data ++ decimal rows ++ ['A']))] := by
  simp [CursorUp, fmt.Printf, fmt.Sprintf, doPrintf, printArg, isDirectiveModifier, extraArgs]

theorem CursorDown_eq (e : escapeFormatter) (rows : Int) (out : Stdout) :
    e.CursorDown rows out
      = out ++ [Output.text (String.mk (e.csi.data ++ decimal rows ++ ['B']))] := by
  simp [CursorDown, fmt.Printf, fmt.Sprintf, doPrintf, printArg, isDirectiveModifier, extraArgs]

end escapeFormatter

/-- A public call through `f` keeps `f` when `f` is bound. -/
theorem viaF_keeps_f (m : formatter → Stdout → Stdout) (s : State) (fm : formatter)
    (h : s.f = some fm) : ∃ s1, viaF m s = some s1 ∧ s1.f = some fm := by
  refine ⟨{ s with stdout := m fm s.stdout }, ?_, h⟩
  simp [viaF, h]

/-- Every public call keeps `f` when `f` is bound, and does not panic. -/
theorem Call.exec_keeps_f (c : Call) (s : State) (fm : formatter) (h : s.f = some fm) :
    ∃ s1, c.exec s = some s1 ∧ s1.f = some fm := by
  cases c with
  | Printf f v => exact ⟨_, rfl, h⟩
  | _ => exact viaF_keeps_f _ s fm h

/-- Bytes written by a public call through `f` in a fresh process on a
terminal, from the text its method writes on the emitter built by `init`. -/
theorem emitted_true_viaF (m : formatter → Stdout → Stdout) (t : List Char)
    (h : m (formatter.escape { csi := "\\033[" }) [] = [Output.text (String.mk t)]) :
    emitted true (viaF m) = some [some (bytes (String.mk t))] := by
  simp [emitted, viaF, init, State.initial, h, writtenBytes, written]

theorem emitted_true_MoveCursor (row col : Int) :
    emitted true (MoveCursor row col)
      = some [some ([0x5C, 0x30, 0x33, 0x33, 0x5B] ++ decimalBytes row ++ [0x3B]
          ++ decimalBytes col ++ [0x48])] := by
  have h := emitted_true_viaF (fun fm => fm.MoveCursor row col) _
    (escapeFormatter.MoveCursor_eq { csi := "\\033[" } row col [])
  show emitted true (viaF (fun fm => fm.MoveCursor row col)) = _
  rw [h]
  simp only [bytes_mk_append]
  rfl

theorem emitted_true_CursorUp (rows : Int) :
    emitted true (CursorUp rows)
      = some [some ([0x5C, 0x30, 0x33, 0x33, 0x5B] ++ decimalBytes rows ++ [0x41])] := by
  have h := emitted_true_viaF (fun fm => fm.CursorUp rows) _
    (escapeFormatter.CursorUp_eq { csi := "\\033[" } rows [])
  show emitted true (viaF (fun fm => fm.CursorUp rows)) = _
  rw [h]
  simp only [bytes_mk_append]
  rfl

theorem emitted_true_CursorDown (rows : Int) :
    emitted true (CursorDown rows)
      = some [some ([0x5C, 0x30, 0x33, 0x33, 0x5B] ++ decimalBytes rows ++ [0x42])] := by
  have h := emitted_true_viaF (fun fm => fm.CursorDown rows) _
    (escapeFormatter.CursorDown_eq { csi := "\\033[" } rows [])
  show emitted true (viaF (fun fm => fm.CursorDown rows)) = _
  rw [h]
  simp only [bytes_mk_append]
  rfl

/-- A sequence of public calls keeps `f` when `f` is bound, and does not
panic. -/
theorem execAll_keeps_f (calls : List Call) (s : State) (fm : formatter)
    (h : s.f = some fm) : ∃ s1, execAll calls s = some s1 ∧ s1.f = some fm := by
  induction calls generalizing s with
  | nil => exact ⟨s, rfl, h⟩
  | cons c rest ih =>
    obtain ⟨s1, h1, hf⟩ := Call.exec_keeps_f c s fm h
    obtain ⟨s2, h2, hf2⟩ := ih s1 hf
    exact ⟨s2, by simp [execAll, h1, h2], hf2⟩

/-! ## The claims -/

/-- C1 (code evaluated on the claim's inputs): for each of the nine declared
colors, `SetForeground(c)` in a process whose standard output is a terminal
writes, in one write, the eight bytes of backslash, `033[`, the decimal
rendering of `30+c` and `m`; it does not write the byte 0x1B followed by `[`,
the decimal rendering of `30+c` and `m`. -/
theorem C1_SetForeground_writes_raw_csi :
    ∀ c ∈ definedColors,
      emitted true (SetForeground c)
          = some [some ([0x5C, 0x30, 0x33, 0x33, 0x5B] ++ decimalBytes (30 + c) ++ [0x6D])]
        ∧ emitted true (SetForeground c)
          ≠ some [some ([0x1B, 0x5B] ++ decimalBytes (30 + c) ++ [0x6D])] := by
  decide

/-- C1 at the failing input `Red`: the bytes written are those of the text
backslash `033[31m`, not the five bytes 0x1B `[31m`. -/
theorem C1_SetForeground_Red_failing_input :
    Red ∈ definedColors
      ∧ emitted true (SetForeground Red)
          = some [some ([0x5C, 0x30, 0x33, 0x33, 0x5B] ++ decimalBytes (30 + Red) ++ [0x6D])]
      ∧ emitted true (SetForeground Red)
          ≠ some [some ([0x1B, 0x5B] ++ decimalBytes (30 + Red) ++ [0x6D])] :=
  ⟨by decide, C1_SetForeground_writes_raw_csi Red (by decide)⟩

/-- C2 (code evaluated on the claim's inputs): for each of the nine declared
colors, `SetBackground(c)` in a process whose standard output is a terminal
writes, in one write, backslash, `033[`, the decimal rendering of `40+c` and
`m`; it does not write the byte 0x1B followed by `[`, the decimal rendering of
`40+c` and `m`. -/
theorem C2_SetBackground_writes_raw_csi :
    ∀ c ∈ definedColors,
      emitted true (SetBackground c)
          = some [some ([0x5C, 0x30, 0x33, 0x33, 0x5B] ++ decimalBytes (40 + c) ++ [0x6D])]
        ∧ emitted true (SetBackground c)
          ≠ some [some ([0x1B, 0x5B] ++ decimalBytes (40 + c) ++ [0x6D])] := by
  decide

/-- C2 at the failing input `Green`: the bytes written are those of the text
backslash `033[42m`, not the five bytes 0x1B `[42m`. -/
theorem C2_SetBackground_Green_failing_input :
    Green ∈ definedColors
      ∧ emitted true (SetBackground Green)
          = some [some ([0x5C, 0x30, 0x33, 0x33, 0x5B] ++ decimalBytes (40 + Green) ++ [0x6D])]
      ∧ emitted true (SetBackground Green)
          ≠ some [some ([0x1B, 0x5B] ++ decimalBytes (40 + Green) ++ [0x6D])] :=
  ⟨by decide, C2_SetBackground_writes_raw_csi Green (by decide)⟩

/-- C3 (code evaluated on the claim's inputs): for each pair of declared
colors, `SetForeAndBackground(fore, back)` in a process whose standard output
is a terminal performs exactly one write, whose bytes are backslash, `033[`,
decimal `30+fore`, `;`, decimal `40+back`, `m`; the write does not start with
the byte 0x1B, so it is not the sequence the claim gives. -/
theorem C3_SetForeAndBackground_writes_raw_csi :
    ∀ fore ∈ definedColors, ∀ back ∈ definedColors,
      emitted true (SetForeAndBackground fore back)
          = some [some ([0x5C, 0x30, 0x33, 0x33, 0x5B] ++ decimalBytes (30 + fore) ++ [0x3B]
              ++ decimalBytes (40 + back) ++ [0x6D])]
        ∧ emitted true (SetForeAndBackground fore back)
          ≠ some [some ([0x1B, 0x5B] ++ decimalBytes (30 + fore) ++ [0x3B]
              ++ decimalBytes (40 + back) ++ [0x6D])] := by
  decide

/-- C3 at the failing input `(Red, Green)`: one write of the text backslash
`033[31;42m`. -/
theorem C3_SetForeAndBackground_Red_Green_failing_input :
    Red ∈ definedColors ∧ Green ∈ definedColors
      ∧ emitted true (SetForeAndBackground Red Green)
          = some [some ([0x5C, 0x30, 0x33, 0x33, 0x5B] ++ decimalBytes (30 + Red) ++ [0x3B]
              ++ decimalBytes (40 + Green) ++ [0x6D])]
      ∧ emitted true (SetForeAndBackground Red Green)
          ≠ some [some ([0x1B, 0x5B] ++ decimalBytes (30 + Red) ++ [0x3B]
              ++ decimalBytes (40 + Green) ++ [0x6D])] :=
  ⟨by decide, by decide,
    C3_SetForeAndBackground_writes_raw_csi Red (by decide) Green (by decide)⟩

/-- C4 (code evaluated on the claim's inputs): for all integers `row`, `col`,
`MoveCursor(row, col)` in a process whose standard output is a terminal writes
backslash, `033[`, decimal `row`, `;`, decimal `col`, `H`, which is not the
sequence starting with the byte 0x1B that the claim gives; `MoveCursor(1,1)`
writes the nine bytes of backslash `033[1;1H` and `MoveCursor(24,80)` the
eleven bytes of backslash `033[24;80H`. -/
theorem C4_MoveCursor_writes_raw_csi (row col : Int) :
    emitted true (MoveCursor row col)
        = some [some ([0x5C, 0x30, 0x33, 0x33, 0x5B] ++ decimalBytes row ++ [0x3B]
            ++ decimalBytes col ++ [0x48])]
      ∧ emitted true (MoveCursor row col)
        ≠ some [some ([0x1B, 0x5B] ++ decimalBytes row ++ [0x3B] ++ decimalBytes col ++ [0x48])]
      ∧ emitted true (MoveCursor 1 1)
        = some [some [0x5C, 0x30, 0x33, 0x33, 0x5B, 0x31, 0x3B, 0x31, 0x48]]
      ∧ emitted true (MoveCursor 24 80)
        = some [some [0x5C, 0x30, 0x33, 0x33, 0x5B, 0x32, 0x34, 0x3B, 0x38, 0x30, 0x48]] := by
  refine ⟨emitted_true_MoveCursor row col, ?_, by decide, by decide⟩
  rw [emitted_true_MoveCursor]
  simp

/-- C5 (code evaluated on the claim's inputs): for every integer `rows`,
`CursorUp(rows)` in a process whose standard output is a terminal writes
backslash, `033[`, decimal `rows`, `A`, and `CursorDown(rows)` the same with
`B`, without clamping (a negative count keeps its minus sign); neither is the
sequence starting with the byte 0x1B that the claim gives.  `CursorUp(0)`
writes the seven bytes of backslash `033[0A`. -/
theorem C5_CursorUp_CursorDown_write_raw_csi (rows : Int) :
    emitted true (CursorUp rows)
        = some [some ([0x5C, 0x30, 0x33, 0x33, 0x5B] ++ decimalBytes rows ++ [0x41])]
      ∧ emitted true (CursorUp rows)
        ≠ some [some ([0x1B, 0x5B] ++ decimalBytes rows ++ [0x41])]
      ∧ emitted true (CursorDown rows)
        = some [some ([0x5C, 0x30, 0x33, 0x33, 0x5B] ++ decimalBytes rows ++ [0x42])]
      ∧ emitted true (CursorDown rows)
        ≠ some [some ([0x1B, 0x5B] ++ decimalBytes rows ++ [0x42])]
      ∧ emitted true (CursorUp 0) = some [some [0x5C, 0x30, 0x33, 0x33, 0x5B, 0x30, 0x41]]
      ∧ emitted true (CursorUp (-3))
        = some [some [0x5C, 0x30, 0x33, 0x33, 0x5B, 0x2D, 0x33, 0x41]] := by
  refine ⟨emitted_true_CursorUp rows, ?_, emitted_true_CursorDown rows, ?_,
    by decide, by decide⟩
  · rw [emitted_true_CursorUp]
    simp
  · rw [emitted_true_CursorDown]
    simp

/-- C6 (code evaluated on the claim's inputs): in a process whose standard
output is a terminal each of the seven parameterless operations writes its
table entry with the five bytes backslash `033[` in place of the two bytes 0x1B
`[`: `ResetColor` writes backslash `033[0m`, `CursorSave` backslash `033[s`,
`CursorRestore` backslash `033[u`, `ClearToEndOfLine` backslash `033[K`,
`ClearToBeginOfLine` backslash `033[1K`, `ClearLine` backslash `033[2K`,
`ClearScreenAndMoveOrigin` backslash `033[2J`; none writes the table's
sequence. -/
theorem C6_parameterless_operations_write_raw_csi :
    (emitted true ResetColor = some [some [0x5C, 0x30, 0x33, 0x33, 0x5B, 0x30, 0x6D]]
        ∧ emitted true ResetColor ≠ some [some [0x1B, 0x5B, 0x30, 0x6D]])
      ∧ (emitted true CursorSave = some [some [0x5C, 0x30, 0x33, 0x33, 0x5B, 0x73]]
        ∧ emitted true CursorSave ≠ some [some [0x1B, 0x5B, 0x73]])
      ∧ (emitted true CursorRestore = some [some [0x5C, 0x30, 0x33, 0x33, 0x5B, 0x75]]
        ∧ emitted true CursorRestore ≠ some [some [0x1B, 0x5B, 0x75]])
      ∧ (emitted true ClearToEndOfLine = some [some [0x5C, 0x30, 0x33, 0x33, 0x5B, 0x4B]]
        ∧ emitted true ClearToEndOfLine ≠ some [some [0x1B, 0x5B, 0x4B]])
      ∧ (emitted true ClearToBeginOfLine
          = some [some [0x5C, 0x30, 0x33, 0x33, 0x5B, 0x31, 0x4B]]
        ∧ emitted true ClearToBeginOfLine ≠ some [some [0x1B, 0x5B, 0x31, 0x4B]])
      ∧ (emitted true ClearLine = some [some [0x5C, 0x30, 0x33, 0x33, 0x5B, 0x32, 0x4B]]
        ∧ emitted true ClearLine ≠ some [some [0x1B, 0x5B, 0x32, 0x4B]])
      ∧ (emitted true ClearScreenAndMoveOrigin
          = some [some [0x5C, 0x30, 0x33, 0x33, 0x5B, 0x32, 0x4A]]
        ∧ emitted true ClearScreenAndMoveOrigin ≠ some [some [0x1B, 0x5B, 0x32, 0x4A]]) := by
  refine ⟨⟨?_, ?_⟩, ⟨?_, ?_⟩, ⟨?_, ?_⟩, ⟨?_, ?_⟩, ⟨?_, ?_⟩, ⟨?_, ?_⟩, ⟨?_, ?_⟩⟩ <;> decide

/-- C7 (code evaluated on the claim's input): the `csi` of the emitter that
`init` constructs on a terminal is the five bytes 0x5C 0x30 0x33 0x33 0x5B
(backslash, `0`, `3`, `3`, `[`), not the two bytes 0x1B 0x5B. -/
theorem C7_init_csi_is_raw_text (s : State) :
    ((init true s).f.bind formatter.csiOf).map bytes
        = some [0x5C, 0x30, 0x33, 0x33, 0x5B]
      ∧ ((init true s).f.bind formatter.csiOf).map bytes ≠ some [0x1B, 0x5B] := by
  have h : ((init true s).f.bind formatter.csiOf).map bytes
      = some [0x5C, 0x30, 0x33, 0x33, 0x5B] := by
    have hf : (init true s).f = some (formatter.escape { csi := "\\033[" }) := rfl
    rw [hf]
    decide
  refine ⟨h, ?_⟩
  rw [h]
  simp

/-- C8: every method of the discard formatter `nullFormater`, called directly
or through the `formatter` interface, with any arguments, returns standard
output exactly as it received it: no write is performed. -/
theorem C8_nullFormater_writes_nothing (n : nullFormater) (m : Method) (out : Stdout) :
    n.invoke m out = out ∧ (formatter.null n).invoke m out = out := by
  cases m <;> exact ⟨rfl, rfl⟩

/-- C9: `init` binds `f` to an escape emitter exactly when terminal detection
on standard output returned true, to the discard emitter exactly when it
returned false, and leaves `f` non-nil in both cases. -/
theorem C9_init_binds_by_detection (isTerminal : Bool) (s : State) :
    ((∃ e, (init isTerminal s).f = some (formatter.escape e)) ↔ isTerminal = true)
      ∧ ((∃ n, (init isTerminal s).f = some (formatter.null n)) ↔ isTerminal = false)
      ∧ (init isTerminal s).f ≠ none := by
  cases isTerminal
  · exact ⟨by simp [init], by simp [init]; exact ⟨{}, trivial⟩, by simp [init]⟩
  · exact ⟨by simp [init], by simp [init], by simp [init]⟩

/-- C10: from any state in which `f` is bound, every finite sequence of public
calls (the thirteen formatting functions and `Printf`, with any arguments) runs
to completion and ends with `f` bound to the same formatter, `csi` included. -/
theorem C10_public_calls_keep_binding (calls : List Call) (s : State) (fm : formatter)
    (h : s.f = some fm) :
    ∃ s1, execAll calls s = some s1 ∧ s1.f = some fm ∧ s1.f.bind formatter.csiOf
      = s.f.bind formatter.csiOf := by
  obtain ⟨s1, h1, hf⟩ := execAll_keeps_f calls s fm h
  exact ⟨s1, h1, hf, by rw [hf, h]⟩

/-- C10 on a terminal process performing a color change, a formatted print and
a cursor move. -/
theorem C10_public_calls_keep_binding_witness :
    (init true (State.initial [])).f = some (formatter.escape { csi := "\\033[" })
      ∧ ∃ s1, execAll [Call.SetForeground Red, Call.Printf "%d" [Value.int 5],
            Call.MoveCursor 1 1] (init true (State.initial [])) = some s1
          ∧ s1.f = some (formatter.escape { csi := "\\033[" })
          ∧ s1.f.bind formatter.csiOf
            = (init true (State.initial [])).f.bind formatter.csiOf :=
  ⟨rfl, C10_public_calls_keep_binding _ _ _ rfl⟩

/-! ## Further lemmas on the embedding -/

theorem wrapInt_eq_iff (x : Int) : wrapInt x = x ↔ isInt x := by
  simp only [wrapInt, isInt, intBits]
  norm_num
  omega

theorem writtenBytes_SetForeground (e : escapeFormatter) (c : Color) :
    writtenBytes (e.SetForeground c [])
      = [some (bytes e.csi ++ (decimalBytes (intAdd 30 c) ++ [0x6D]))] := by
  rw [escapeFormatter.SetForeground_eq]
  simp only [List.nil_append, writtenBytes, written, List.map, Option.map, List.append_assoc,
    bytes_mk_append, decimalBytes]
  rfl

theorem writtenBytes_SetBackground (e : escapeFormatter) (c : Color) :
    writtenBytes (e.SetBackground c [])
      = [some (bytes e.csi ++ (decimalBytes (intAdd 40 c) ++ [0x6D]))] := by
  rw [escapeFormatter.SetBackground_eq]
  simp only [List.nil_append, writtenBytes, written, List.map, Option.map, List.append_assoc,
    bytes_mk_append, decimalBytes]
  rfl

theorem writtenBytes_SetForeAndBackground (e : escapeFormatter) (fore back : Color) :
    writtenBytes (e.SetForeAndBackground fore back [])
      = [some (bytes e.csi ++ (decimalBytes (intAdd 30 fore) ++ [0x3B]
          ++ decimalBytes (intAdd 40 back) ++ [0x6D]))] := by
  rw [escapeFormatter.SetForeAndBackground_eq]
  simp only [List.nil_append, writtenBytes, written, List.map, Option.map, List.append_assoc,
    bytes_mk_append, decimalBytes]
  rfl

theorem writtenBytes_ResetColor (e : escapeFormatter) :
    writtenBytes (e.ResetColor []) = [some (bytes e.csi ++ [0x30, 0x6D])] := by
  rw [escapeFormatter.ResetColor_eq]
  simp only [List.nil_append, writtenBytes, written, List.map, Option.map, List.append_assoc,
    bytes_mk_append]
  rfl

theorem writtenBytes_ClearScreenAndMoveOrigin (e : escapeFormatter) :
    writtenBytes (e.ClearScreenAndMoveOrigin []) = [some (bytes e.csi ++ [0x32, 0x4A])] := by
  rw [escapeFormatter.ClearScreenAndMoveOrigin_eq]
  simp only [List.nil_append, writtenBytes, written, List.map, Option.map, bytes_mk_append]
  rfl

/-- Foreground parameters of the declared colors are told apart by their
decimal rendering. -/
theorem foreground_bytes_inj :
    ∀ c1 ∈ definedColors, ∀ c2 ∈ definedColors,
      (decimalBytes (intAdd 30 c1) ++ [0x6D] = decimalBytes (intAdd 30 c2) ++ [0x6D]
        ↔ c1 = c2) := by
  decide

theorem background_bytes_inj :
    ∀ c1 ∈ definedColors, ∀ c2 ∈ definedColors,
      (decimalBytes (intAdd 40 c1) ++ [0x6D] = decimalBytes (intAdd 40 c2) ++ [0x6D]
        ↔ c1 = c2) := by
  decide

theorem foreground_background_bytes_ne :
    ∀ c1 ∈ definedColors, ∀ c2 ∈ definedColors,
      decimalBytes (intAdd 30 c1) ++ [0x6D] ≠ decimalBytes (intAdd 40 c2) ++ [0x6D] := by
  decide

/-- The two bytes of the foreground and background parameters of a declared
color. -/
theorem color_parameter_bytes :
    ∀ c ∈ definedColors,
      decimalBytes (intAdd 30 c) = [0x33, 0x30 + c.toNat]
        ∧ decimalBytes (intAdd 40 c) = [0x34, 0x30 + c.toNat] := by
  decide

theorem toNat_inj_definedColors :
    ∀ c1 ∈ definedColors, ∀ c2 ∈ definedColors, c1.toNat = c2.toNat → c1 = c2 := by
  decide

theorem color_parameter_range :
    ∀ c ∈ definedColors,
      30 ≤ intAdd 30 c ∧ intAdd 30 c ≤ 39 ∧ 40 ≤ intAdd 40 c ∧ intAdd 40 c ≤ 49 := by
  decide

theorem fore_and_background_bytes_inj (f1 b1 f2 b2 : Color)
    (hf1 : f1 ∈ definedColors) (hb1 : b1 ∈ definedColors)
    (hf2 : f2 ∈ definedColors) (hb2 : b2 ∈ definedColors) :
    (decimalBytes (intAdd 30 f1) ++ [0x3B] ++ decimalBytes (intAdd 40 b1) ++ [0x6D]
        = decimalBytes (intAdd 30 f2) ++ [0x3B] ++ decimalBytes (intAdd 40 b2) ++ [0x6D])
      ↔ (f1 = f2 ∧ b1 = b2) := by
  constructor
  · intro h
    rw [(color_parameter_bytes f1 hf1).1, (color_parameter_bytes f2 hf2).1,
      (color_parameter_bytes b1 hb1).2, (color_parameter_bytes b2 hb2).2] at h
    simp at h
    exact ⟨toNat_inj_definedColors f1 hf1 f2 hf2 h.1, toNat_inj_definedColors b1 hb1 b2 hb2 h.2⟩
  · rintro ⟨rfl, rfl⟩
    rfl

/-! ## The claims, continued -/

/-- C11: on any escape emitter, two calls of `ResetColor` in sequence append
the text of one call twice: standard output after the two calls is the former
output followed by the single write of one call, twice over, so the bytes of
the second write are those of the first (the emitter's `csi`, then `0m`).  The
same holds through the public `ResetColor` when `f` is bound to the emitter. -/
theorem C11_ResetColor_twice_writes_twice (e : escapeFormatter) (out : Stdout) :
    e.ResetColor (e.ResetColor out) = out ++ e.ResetColor [] ++ e.ResetColor []
      ∧ writtenBytes (e.ResetColor (e.ResetColor []))
        = writtenBytes (e.ResetColor []) ++ writtenBytes (e.ResetColor [])
      ∧ writtenBytes (e.ResetColor []) = [some (bytes e.csi ++ [0x30, 0x6D])]
      ∧ (ResetColor (State.bound (formatter.escape e) out)).bind ResetColor
        = some (State.bound (formatter.escape e)
            (out ++ e.ResetColor [] ++ e.ResetColor [])) := by
  have h2 : e.ResetColor (e.ResetColor out) = out ++ e.ResetColor [] ++ e.ResetColor [] := by
    simp [escapeFormatter.ResetColor_eq]
  refine ⟨h2, ?_, writtenBytes_ResetColor e, ?_⟩
  · simp [escapeFormatter.ResetColor_eq, writtenBytes, written]
  · simp [ResetColor, viaF, State.bound, formatter.ResetColor, h2]

/-- C12: with `f` bound to either formatter, each of the thirteen public
formatting functions returns without panic, leaves `f` as it is, and turns
standard output into what the same-named method of the bound formatter makes of
it when given the same arguments in the same order. -/
theorem C12_public_functions_forward (fm : formatter) (e : escapeFormatter) (out : Stdout)
    (c fore back : Color) (row col rows : Int) :
    ResetColor (State.bound fm out) = some (State.bound fm (fm.ResetColor out))
      ∧ SetForeground c (State.bound fm out) = some (State.bound fm (fm.SetForeground c out))
      ∧ SetBackground c (State.bound fm out) = some (State.bound fm (fm.SetBackground c out))
      ∧ SetForeAndBackground fore back (State.bound fm out)
        = some (State.bound fm (fm.SetForeAndBackground fore back out))
      ∧ CursorSave (State.bound fm out) = some (State.bound fm (fm.CursorSave out))
      ∧ CursorRestore (State.bound fm out) = some (State.bound fm (fm.CursorRestore out))
      ∧ ClearToEndOfLine (State.bound fm out)
        = some (State.bound fm (fm.ClearToEndOfLine out))
      ∧ ClearToBeginOfLine (State.bound fm out)
        = some (State.bound fm (fm.ClearToBeginOfLine out))
      ∧ ClearLine (State.bound fm out) = some (State.bound fm (fm.ClearLine out))
      ∧ ClearScreenAndMoveOrigin (State.bound fm out)
        = some (State.bound fm (fm.ClearScreenAndMoveOrigin out))
      ∧ MoveCursor row col (State.bound fm out)
        = some (State.bound fm (fm.MoveCursor row col out))
      ∧ CursorUp rows (State.bound fm out) = some (State.bound fm (fm.CursorUp rows out))
      ∧ CursorDown rows (State.bound fm out) = some (State.bound fm (fm.CursorDown rows out))
      ∧ SetForeAndBackground fore back (State.bound (formatter.escape e) out)
        = some (State.bound (formatter.escape e) (e.SetForeAndBackground fore back out))
      ∧ MoveCursor row col (State.bound (formatter.escape e) out)
        = some (State.bound (formatter.escape e) (e.MoveCursor row col out)) := by
  refine ⟨rfl, rfl, rfl, rfl, rfl, rfl, rfl, rfl, rfl, rfl, rfl, rfl, rfl, rfl, rfl⟩

/-- C13 (code evaluated at the failing inputs): whatever terminal detection
returned, `Printf("%d", 5)` writes the three bytes `[5]` where formatting `%d`
with the operand 5 writes the single byte `5`, and `Printf("%s-%s", "a", "b")`
writes `[a b]-%!s(MISSING)` where formatting with the operands `a` and `b`
writes `a-b`: the variadic slice reaches `fmt.Printf` as one operand. -/
theorem C13_Printf_formats_slice_as_one_operand (isTerminal : Bool) :
    emitted isTerminal (Printf "%d" [Value.int 5]) = some [some [0x5B, 0x35, 0x5D]]
      ∧ writtenBytes (fmt.Printf "%d" [Value.int 5] []) = [some [0x35]]
      ∧ emitted isTerminal (Printf "%d" [Value.int 5])
        ≠ some (writtenBytes (fmt.Printf "%d" [Value.int 5] []))
      ∧ emitted isTerminal (Printf "%s-%s" [Value.str "a", Value.str "b"])
        = some [some (bytes "[a b]-%!s(MISSING)")]
      ∧ writtenBytes (fmt.Printf "%s-%s" [Value.str "a", Value.str "b"] [])
        = [some [0x61, 0x2D, 0x62]]
      ∧ emitted isTerminal (Printf "%s-%s" [Value.str "a", Value.str "b"])
        ≠ some (writtenBytes (fmt.Printf "%s-%s" [Value.str "a", Value.str "b"] [])) := by
  cases isTerminal <;> refine ⟨?_, ?_, ?_, ?_, ?_, ?_⟩ <;> decide

/-- C14 as stated fails when `30+c` overflows `int`: on the emitter with `csi`
the byte 0x1B and `[`, `SetForeground` of the largest `int`,
9223372036854775807, writes `-9223372036854775779` as its parameter, not the
decimal rendering of the sum 9223372036854775837. -/
theorem C14_SetForeground_overflow_counterexample :
    isInt 9223372036854775807
      ∧ written ((escapeFormatter.mk "\x1b[").SetForeground 9223372036854775807 [])
        = [some "\x1b[-9223372036854775779m"]
      ∧ written ((escapeFormatter.mk "\x1b[").SetForeground 9223372036854775807 [])
        ≠ [some (String.mk ("\x1b[".data ++ decimal (30 + 9223372036854775807) ++ ['m']))] := by
  refine ⟨?_, ?_, ?_⟩ <;> decide

/-- C14 (amended): for every escape emitter, whatever its `csi`, and all
integer arguments, each operation performs one write of `csi`, its parameters
in decimal separated by `;`, and one command letter: `SetForeground(c)` writes
`csi`, the decimal of `30+c` in `int` arithmetic, `m`; `SetBackground(c)` the
same with `40+c`; `MoveCursor(row, col)` writes `csi`, `row`, `;`, `col`, `H`;
`CursorUp(n)` and `CursorDown(n)` write `csi`, `n`, then `A` or `B`.  The `int`
sums are the mathematical sums exactly when these are values of `int`, and wrap
around otherwise.  Nothing is rejected: the colors 8 and -1 are written as 38
and 29. -/
theorem C14_escape_emitter_formats (e : escapeFormatter) (c row col n : Int) (out : Stdout) :
    e.SetForeground c out
        = out ++ [Output.text (String.mk (e.csi.data ++ decimal (wrapInt (30 + c)) ++ ['m']))]
      ∧ e.SetBackground c out
        = out ++ [Output.text (String.mk (e.csi.data ++ decimal (wrapInt (40 + c)) ++ ['m']))]
      ∧ e.MoveCursor row col out
        = out ++ [Output.text
            (String.mk (e.csi.data ++ decimal row ++ [';'] ++ decimal col ++ ['H']))]
      ∧ e.CursorUp n out
        = out ++ [Output.text (String.mk (e.csi.data ++ decimal n ++ ['A']))]
      ∧ e.CursorDown n out
        = out ++ [Output.text (String.mk (e.csi.data ++ decimal n ++ ['B']))]
      ∧ (wrapInt (30 + c) = 30 + c ↔ isInt (30 + c))
      ∧ (wrapInt (40 + c) = 40 + c ↔ isInt (40 + c))
      ∧ e.SetForeground 8 out
        = out ++ [Output.text (String.mk (e.csi.data ++ ['3', '8', 'm']))]
      ∧ e.SetForeground (-1) out
        = out ++ [Output.text (String.mk (e.csi.data ++ ['2', '9', 'm']))] := by
  refine ⟨escapeFormatter.SetForeground_eq e c out, escapeFormatter.SetBackground_eq e c out,
    escapeFormatter.MoveCursor_eq e row col out, escapeFormatter.CursorUp_eq e n out,
    escapeFormatter.CursorDown_eq e n out, wrapInt_eq_iff _, wrapInt_eq_iff _, ?_, ?_⟩
  · rw [escapeFormatter.SetForeground_eq, List.append_assoc]
    rfl
  · rw [escapeFormatter.SetForeground_eq, List.append_assoc]
    rfl

/-- C15 (code evaluated at the failing input): `ClearScreenAndMoveOrigin`
writes, after the emitter's `csi`, the two bytes `2J` and nothing else.  On the
emitter whose `csi` is the byte 0x1B and `[` the bytes are 1B 5B 32 4A, which a
terminal reads as erase-display alone: from every cursor position the display
is erased and the cursor stays where it was, so from row 5, column 7 it does
not end at row 1, column 1, as it would had a cursor-position command
followed.  On the emitter bound by `init` the bytes are the text backslash
`033[2J`. -/
theorem C15_ClearScreenAndMoveOrigin_keeps_cursor (e : escapeFormatter) (row col : Nat)
    (erased : Bool) :
    writtenBytes (e.ClearScreenAndMoveOrigin []) = [some (bytes e.csi ++ [0x32, 0x4A])]
      ∧ stdoutBytes ((escapeFormatter.mk "\x1b[").ClearScreenAndMoveOrigin [])
        = some [0x1B, 0x5B, 0x32, 0x4A]
      ∧ Terminal.receive ((escapeFormatter.mk "\x1b[").ClearScreenAndMoveOrigin [])
          { row := row, col := col, erased := erased }
        = some { row := row, col := col, erased := true }
      ∧ Terminal.receive ((escapeFormatter.mk "\x1b[").ClearScreenAndMoveOrigin [])
          { row := 5, col := 7, erased := false }
        ≠ some { row := 1, col := 1, erased := true }
      ∧ Terminal.interpret [0x1B, 0x5B, 0x32, 0x4A, 0x1B, 0x5B, 0x31, 0x3B, 0x31, 0x48]
          { row := 5, col := 7, erased := false }
        = some { row := 1, col := 1, erased := true }
      ∧ emitted true ClearScreenAndMoveOrigin
        = some [some [0x5C, 0x30, 0x33, 0x33, 0x5B, 0x32, 0x4A]] := by
  have hb : stdoutBytes ((escapeFormatter.mk "\x1b[").ClearScreenAndMoveOrigin [])
      = some [0x1B, 0x5B, 0x32, 0x4A] := by decide
  refine ⟨writtenBytes_ClearScreenAndMoveOrigin e, hb, ?_, by decide, by decide, by decide⟩
  rw [Terminal.receive, hb]
  simp [Terminal.interpret, Terminal.feed, Terminal.control]

/-- C16: on any escape emitter and over the nine declared colors, the bytes
written by `SetForeground` determine the color, so do those written by
`SetBackground`, no `SetForeground` output equals a `SetBackground` output, and
the bytes written by `SetForeAndBackground` determine both colors; the
foreground parameter lies in 30..39 and the background parameter in 40..49. -/
theorem C16_color_encoding_unambiguous (e : escapeFormatter) (c1 c2 b1 b2 : Color)
    (h1 : c1 ∈ definedColors) (h2 : c2 ∈ definedColors)
    (h3 : b1 ∈ definedColors) (h4 : b2 ∈ definedColors) :
    (writtenBytes (e.SetForeground c1 []) = writtenBytes (e.SetForeground c2 []) ↔ c1 = c2)
      ∧ (writtenBytes (e.SetBackground c1 []) = writtenBytes (e.SetBackground c2 []) ↔ c1 = c2)
      ∧ writtenBytes (e.SetForeground c1 []) ≠ writtenBytes (e.SetBackground c2 [])
      ∧ (writtenBytes (e.SetForeAndBackground c1 b1 [])
          = writtenBytes (e.SetForeAndBackground c2 b2 []) ↔ c1 = c2 ∧ b1 = b2)
      ∧ (30 ≤ intAdd 30 c1 ∧ intAdd 30 c1 ≤ 39)
      ∧ (40 ≤ intAdd 40 c1 ∧ intAdd 40 c1 ≤ 49) := by
  have hr := color_parameter_range c1 h1
  refine ⟨?_, ?_, ?_, ?_, ⟨hr.1, hr.2.1⟩, ⟨hr.2.2.1, hr.2.2.2⟩⟩
  · rw [writtenBytes_SetForeground, writtenBytes_SetForeground]
    simp only [List.cons.injEq, Option.some.injEq, and_true, List.append_cancel_left_eq]
    exact foreground_bytes_inj c1 h1 c2 h2
  · rw [writtenBytes_SetBackground, writtenBytes_SetBackground]
    simp only [List.cons.injEq, Option.some.injEq, and_true, List.append_cancel_left_eq]
    exact background_bytes_inj c1 h1 c2 h2
  · rw [writtenBytes_SetForeground, writtenBytes_SetBackground]
    simp only [ne_eq, List.cons.injEq, Option.some.injEq, and_true,
      List.append_cancel_left_eq]
    exact foreground_background_bytes_ne c1 h1 c2 h2
  · rw [writtenBytes_SetForeAndBackground, writtenBytes_SetForeAndBackground]
    simp only [List.cons.injEq, Option.some.injEq, and_true, List.append_cancel_left_eq]
    exact fore_and_background_bytes_inj c1 b1 c2 b2 h1 h3 h2 h4

/-- C16 on the emitter with `csi` the byte 0x1B and `[`, for the foreground
colors `Red`, `Green` and the background colors `Blue`, `White`. -/
theorem C16_color_encoding_unambiguous_witness :
    (Red ∈ definedColors ∧ Green ∈ definedColors ∧ Blue ∈ definedColors
        ∧ White ∈ definedColors)
      ∧ (writtenBytes ((escapeFormatter.mk "\x1b[").SetForeground Red [])
          = writtenBytes ((escapeFormatter.mk "\x1b[").SetForeground Green []) ↔ Red = Green)
      ∧ (writtenBytes ((escapeFormatter.mk "\x1b[").SetBackground Red [])
          = writtenBytes ((escapeFormatter.mk "\x1b[").SetBackground Green []) ↔ Red = Green)
      ∧ writtenBytes ((escapeFormatter.mk "\x1b[").SetForeground Red [])
          ≠ writtenBytes ((escapeFormatter.mk "\x1b[").SetBackground Green [])
      ∧ (writtenBytes ((escapeFormatter.mk "\x1b[").SetForeAndBackground Red Blue [])
          = writtenBytes ((escapeFormatter.mk "\x1b[").SetForeAndBackground Green White [])
            ↔ Red = Green ∧ Blue = White)
      ∧ (30 ≤ intAdd 30 Red ∧ intAdd 30 Red ≤ 39)
      ∧ (40 ≤ intAdd 40 Red ∧ intAdd 40 Red ≤ 49) :=
  ⟨⟨by decide, by decide, by decide, by decide⟩,
    C16_color_encoding_unambiguous (escapeFormatter.mk "\x1b[") Red Green Blue White
      (by decide) (by decide) (by decide) (by decide)⟩

end ansi
